import Mathlib

/-!
A shallow embedding of the GitBuddy synchronization scheduler, translated from
`src/gitbuddy_app.py` (the integrated GUI application scheduler) and
`src/git_puller_service.py` (the standalone background service), together with
theorems settling the specification claims about it.

Conventions of the embedding:
* Python strings are Lean `String`; helpers that the Python code relies on
  (`str.strip`, `str.lower`, the `in` substring test, `os.path.join`,
  `os.path.basename`, `str.format` with the `timestamp` field) are modelled
  over `List Char` so that concrete instances evaluate by `decide`.
* Timestamps (`datetime` values) are integers measured in seconds; the
  `datetime.min` sentinel is the constant `datetimeMin`.  Subtraction of
  datetimes followed by `.total_seconds()` is rational subtraction.
* The filesystem and the external `git` processes are oracles carried in a
  `World` value: `fs.isDir` answers `os.path.isdir`, and `spawn` returns the
  outcome that `subprocess.run` would produce for a given working directory
  and argument vector.  Every process actually spawned is recorded in a trace
  of `SpawnCall` values, which also record the environment overrides and the
  stdin disposition the Python code passes to `subprocess.run`.
* Desktop notifications (`send_notification`) are recorded as `Report` pairs
  (title, message) instead of being sent.
-/

/-- Membership test of `str.strip`: Python strips ASCII whitespace from both ends. -/
def isPyWhitespace (c : Char) : Bool :=
  c == ' ' || c == '\t' || c == '\n' || c == '\r' || c == Char.ofNat 11 || c == Char.ofNat 12

/-- Python `str.strip` on the underlying character list. -/
def pyStripList (l : List Char) : List Char :=
  ((l.dropWhile isPyWhitespace).reverse.dropWhile isPyWhitespace).reverse

/-- Python `str.strip()`. -/
def pyStrip (s : String) : String :=
  ⟨pyStripList s.data⟩

/-- Python `str.lower()` restricted to ASCII, which is all the matcher needs. -/
def pyLower (s : String) : String :=
  ⟨s.data.map Char.toLower⟩

/-- Whether `needle` is a prefix of `hay` (character lists, executable). -/
def listStartsWith : List Char → List Char → Bool
  | [], _ => true
  | _ :: _, [] => false
  | a :: as, b :: bs => a == b && listStartsWith as bs

/-- Python `needle in hay` substring containment on character lists. -/
def listContains (needle : List Char) : List Char → Bool
  | [] => listStartsWith needle []
  | c :: rest => listStartsWith needle (c :: rest) || listContains needle rest

/-- Python `needle in hay` on strings. -/
def strContains (hay needle : String) : Bool :=
  listContains needle.data hay.data

/-- Model of `os.path.join(a, b)` for the POSIX paths the scheduler uses. -/
def joinPath (a b : String) : String :=
  a ++ "/" ++ b

/-- Model of `os.path.basename` for POSIX paths. -/
def basename (p : String) : String :=
  (p.splitOn "/").getLastD ""

/-- Python `template.format(timestamp=ts)` for the commit-message templates:
replaces every occurrence of the `{timestamp}` placeholder.  (The scheduler
only ever formats with this single keyword argument.) -/
def formatTimestamp (template ts : String) : String :=
  String.intercalate ts (template.splitOn "{timestamp}")

/-- Result of one `subprocess.run` invocation, as the Python code observes it:
either a completed process with a return code and captured streams, or one of
the exceptional outcomes the code catches. -/
inductive SpawnOutcome
  | completed (returncode : Int) (stdout : String) (stderr : String)
  | fileNotFound
  | timeoutExpired
  | otherExc (msg : String)
deriving DecidableEq

/-- One recorded call to `subprocess.run`: working directory, full argument
vector, the environment variables the caller overrides on top of the inherited
environment, and whether stdin is redirected away from the terminal. -/
structure SpawnCall where
  cwd : String
  args : List String
  envOverrides : List (String × String)
  stdinPiped : Bool
deriving DecidableEq

/-- The external world: filesystem queries and process outcomes, plus the
current wall-clock time (`datetime.now()`, constant within one tick) both as
seconds and as its `%Y-%m-%d %H:%M:%S` rendering. -/
structure World where
  isDir : String → Bool
  spawn : String → List String → SpawnOutcome
  now : ℤ
  nowStr : String

/-- The `datetime.min` sentinel used for "never succeeded". -/
def datetimeMin : ℤ := 0

/-- The `CommandOutcome` of the GUI scheduler: `run_git_command` in
`gitbuddy_app.py` returns `(success, output, is_auth_error)`. -/
structure Outcome where
  succeeded : Bool
  output : String
  is_auth_error : Bool
deriving DecidableEq

/-- The fixed list of credential-failure phrases from
`gitbuddy_app.run_git_command` (`auth_error_keywords`), verbatim. -/
def auth_error_keywords : List String :=
  [ "authentication failed",
    "could not read username",
    "could not read password",
    "permission denied (publickey)",
    "fatal: authentication failed",
    "remote: authentication required",
    "bad credentials",
    "no matching private key",
    "sign_and_send_pubkey: no mutual signature algorithm",
    "username for",
    "password for",
    "ssh: connect to host",
    "no supported authentication methods available",
    "fatal: could not read from remote repository",
    "fatal: repository not found" ]

/-- Model of `any(keyword in stderr_output.lower() for keyword in auth_error_keywords)`:
the authentication classifier applied to the (already stripped) stderr text. -/
def matchesAuthKeyword (stderr_output : String) : Bool :=
  auth_error_keywords.any (fun keyword => strContains (pyLower stderr_output) keyword)

/-- The environment overrides `gitbuddy_app.run_git_command` installs before
spawning: terminal prompting off, credential helper forced to fail fast. -/
def gitEnvOverrides : List (String × String) :=
  [("GIT_TERMINAL_PROMPT", "0"), ("GIT_ASKPASS", "/bin/true")]

/-- Model of `gitbuddy_app.run_git_command(repo_path, command_args, timeout)`:
precondition checks, then a spawn with the non-interactive environment and
piped stdin; classifies stderr for authentication failures, which are only
reported on a non-zero exit.  Returns the outcome and the trace of spawned
processes. -/
def run_git_command (w : World) (repo_path : String) (command_args : List String) :
    Outcome × List SpawnCall :=
  if w.isDir repo_path = false then
    (⟨false, "Not a directory", false⟩, [])
  else if w.isDir (joinPath repo_path ".git") = false then
    (⟨false, "Not a Git repository", false⟩, [])
  else
    let full_command := "git" :: command_args
    let call : SpawnCall := ⟨repo_path, full_command, gitEnvOverrides, true⟩
    match w.spawn repo_path full_command with
    | .completed returncode out err =>
      let stderr_output := pyStrip err
      let stdout_output := pyStrip out
      let is_auth_error := matchesAuthKeyword stderr_output
      if returncode != 0 then
        (⟨false, stderr_output, is_auth_error⟩, [call])
      else
        (⟨true, stdout_output, false⟩, [call])
    | .fileNotFound => (⟨false, "Git command not found", false⟩, [call])
    | .timeoutExpired => (⟨false, "Command timed out", false⟩, [call])
    | .otherExc msg => (⟨false, msg, false⟩, [call])

/-- Model of `git_puller_service.run_git_command(repo_path, command_args, timeout)`:
the background-service variant.  Same precondition checks, but the spawn
overrides no environment variables and leaves stdin attached (the call passes
neither `env` nor `stdin` to `subprocess.run`), and the result is a bare
`(success, message)` pair with no authentication flag. -/
def svc_run_git_command (w : World) (repo_path : String) (command_args : List String) :
    (Bool × String) × List SpawnCall :=
  if w.isDir repo_path = false then
    ((false, "Not a directory"), [])
  else if w.isDir (joinPath repo_path ".git") = false then
    ((false, "Not a Git repository"), [])
  else
    let full_command := "git" :: command_args
    let call : SpawnCall := ⟨repo_path, full_command, [], false⟩
    match w.spawn repo_path full_command with
    | .completed returncode out err =>
      if returncode != 0 then
        ((false, pyStrip err), [call])
      else
        ((true, pyStrip out), [call])
    | .fileNotFound => ((false, "Git command not found"), [call])
    | .timeoutExpired => ((false, "Command timed out"), [call])
    | .otherExc msg => ((false, msg), [call])

/-- A desktop notification (`send_notification(title, message)`), recorded
instead of sent. -/
structure Report where
  title : String
  message : String
deriving DecidableEq

/-- Python `str.capitalize()` as used on the operation names. -/
def capitalizeStr (s : String) : String :=
  match s.data with
  | [] => ""
  | c :: rest => ⟨Char.toUpper c :: rest.map Char.toLower⟩

/-- Model of `gitbuddy_app.handle_git_operation_result`: the notifications it emits
(the returned success flag is the one passed in; the auth branch additionally
raises a modal dialog, which we record through its companion notification). -/
def handle_git_operation_result (repo_path operation_name : String)
    (success : Bool) (message : String) (is_auth_error : Bool) : List Report :=
  let repo_base_name := basename repo_path
  let opCap := capitalizeStr operation_name
  if success then
    [⟨"GitBuddy: " ++ opCap ++ " Complete",
      "Repository: " ++ repo_base_name ++ "\nOperation: " ++ opCap⟩]
  else if is_auth_error then
    [⟨"GitBuddy: " ++ opCap ++ " Failed (Auth)",
      "Repository: " ++ repo_base_name ++ "\nError: Authentication required. Check Git Settings tab."⟩]
  else
    [⟨"GitBuddy: " ++ opCap ++ " Failed",
      "Repository: " ++ repo_base_name ++ "\nError: " ++ message⟩]

/-- Model of `gitbuddy_app.pull_repository`: one pull attempt; returns the success
flag plus the spawned processes and emitted notifications. -/
def pull_repository (w : World) (repo_path : String) :
    Bool × List SpawnCall × List Report :=
  let r := run_git_command w repo_path ["pull"]
  (r.1.succeeded, r.2,
    handle_git_operation_result repo_path "pull" r.1.succeeded r.1.output r.1.is_auth_error)

/-- Model of `gitbuddy_app.push_repository`. -/
def push_repository (w : World) (repo_path : String) :
    Bool × List SpawnCall × List Report :=
  let r := run_git_command w repo_path ["push"]
  (r.1.succeeded, r.2,
    handle_git_operation_result repo_path "push" r.1.succeeded r.1.output r.1.is_auth_error)

/-- Model of `gitbuddy_app.commit_repository`: status check first; empty (stripped)
status output means nothing to commit, so the function returns `false`
without staging or committing and without emitting any failure notification;
otherwise stage all, then commit with the formatted template message. -/
def commit_repository (w : World) (repo_path commit_message_template : String) :
    Bool × List SpawnCall × List Report :=
  let rs := run_git_command w repo_path ["status", "--porcelain"]
  if rs.1.succeeded = false then
    (false, rs.2,
      [⟨"GitBuddy: Commit Failed",
        "Repository: " ++ basename repo_path ++ "\nError: Failed to get status."⟩])
  else if pyStrip rs.1.output = "" then
    (false, rs.2, [])
  else
    let ra := run_git_command w repo_path ["add", "."]
    if ra.1.succeeded = false then
      (false, rs.2 ++ ra.2,
        [⟨"GitBuddy: Commit Failed",
          "Repository: " ++ basename repo_path ++ "\nError: Failed to stage changes."⟩])
    else
      let final_commit_message := formatTimestamp commit_message_template w.nowStr
      let rc := run_git_command w repo_path ["commit", "-m", final_commit_message]
      (rc.1.succeeded, rs.2 ++ ra.2 ++ rc.2,
        handle_git_operation_result repo_path "commit" rc.1.succeeded rc.1.output rc.1.is_auth_error)

/-- One repository entry as held in `app_state["repositories"]` after loading:
settings plus the three runtime timestamps (seconds; intervals already in
seconds in the GUI application). -/
structure RepoData where
  path : String
  auto_pull : Bool
  pull_interval : ℤ
  last_pulled_at : ℤ
  auto_commit : Bool
  commit_interval : ℤ
  last_committed_at : ℤ
  commit_message_template : String
  auto_push : Bool
  push_interval : ℤ
  last_pushed_at : ℤ
deriving DecidableEq

/-- The scheduler-relevant application state: the repository list and the
three global pause flags. -/
structure AppState where
  repositories : List RepoData
  global_pause_pull : Bool
  global_pause_commit : Bool
  global_pause_push : Bool
deriving DecidableEq

/-- The due-ness test `time_since.total_seconds() >= interval_seconds`. -/
def dueB (now last interval : ℤ) : Bool :=
  decide (interval ≤ now - last)

/-- The pull block of `perform_periodic_sync` for one repository (lines
768-786 of `gitbuddy_app.py`): guarded by the global pause flag and the
per-repository enable flag, attempted when due, and the timestamp advanced
only on a `true` result from `pull_repository`. -/
def pullPhase (w : World) (global_pause_pull : Bool) (repo : RepoData) :
    RepoData × List SpawnCall × List Report :=
  if !global_pause_pull && repo.auto_pull then
    if dueB w.now repo.last_pulled_at repo.pull_interval then
      let r := pull_repository w repo.path
      (if r.1 then { repo with last_pulled_at := w.now } else repo, r.2.1, r.2.2)
    else (repo, [], [])
  else (repo, [], [])

/-- The commit block of `perform_periodic_sync` (lines 788-807). -/
def commitPhase (w : World) (global_pause_commit : Bool) (repo : RepoData) :
    RepoData × List SpawnCall × List Report :=
  if !global_pause_commit && repo.auto_commit then
    if dueB w.now repo.last_committed_at repo.commit_interval then
      let r := commit_repository w repo.path repo.commit_message_template
      (if r.1 then { repo with last_committed_at := w.now } else repo, r.2.1, r.2.2)
    else (repo, [], [])
  else (repo, [], [])

/-- The push block of `perform_periodic_sync` (lines 809-827). -/
def pushPhase (w : World) (global_pause_push : Bool) (repo : RepoData) :
    RepoData × List SpawnCall × List Report :=
  if !global_pause_push && repo.auto_push then
    if dueB w.now repo.last_pushed_at repo.push_interval then
      let r := push_repository w repo.path
      (if r.1 then { repo with last_pushed_at := w.now } else repo, r.2.1, r.2.2)
    else (repo, [], [])
  else (repo, [], [])

/-- The validity pre-check of `perform_periodic_sync` (line 762): the path is
a directory and contains a `.git` directory. -/
def validRepoB (w : World) (repo : RepoData) : Bool :=
  w.isDir repo.path && w.isDir (joinPath repo.path ".git")

/-- Processing of one repository inside `perform_periodic_sync`: the invalid
path guard (line 762) skips the repository entirely; otherwise the pull,
commit, and push blocks run in order on the in-place-mutated entry. -/
def syncRepo (w : World) (pp pc ps : Bool) (repo : RepoData) :
    RepoData × List SpawnCall × List Report :=
  if !validRepoB w repo then
    (repo, [], [])
  else
    let a := pullPhase w pp repo
    let b := commitPhase w pc a.1
    let c := pushPhase w ps b.1
    (c.1, a.2.1 ++ b.2.1 ++ c.2.1, a.2.2 ++ b.2.2 ++ c.2.2)

/-- Model of `gitbuddy_app.perform_periodic_sync`: one timer tick.  Each configured
repository is processed independently in list order; the pause flags are read
from the application state; the early return on an empty repository list
coincides with mapping over the empty list. -/
def perform_periodic_sync (w : World) (st : AppState) :
    AppState × List SpawnCall × List Report :=
  let results := st.repositories.map
    (fun repo => syncRepo w st.global_pause_pull st.global_pause_commit st.global_pause_push repo)
  ({ st with repositories := results.map (fun r => r.1) },
   (results.map (fun r => r.2.1)).flatten,
   (results.map (fun r => r.2.2)).flatten)

/-- Model of `git_puller_service.pull_repository`: success flag of the pull attempt
(notifications elided; they do not affect control flow). -/
def svc_pull_repository (w : World) (repo_path : String) : Bool :=
  (svc_run_git_command w repo_path ["pull"]).1.1

/-- Model of `git_puller_service.push_repository`. -/
def svc_push_repository (w : World) (repo_path : String) : Bool :=
  (svc_run_git_command w repo_path ["push"]).1.1

/-- Model of `git_puller_service.commit_repository`: status first, skip when the
stripped status output is empty, else stage all and commit. -/
def svc_commit_repository (w : World) (repo_path commit_message_template : String) : Bool :=
  let rs := svc_run_git_command w repo_path ["status", "--porcelain"]
  if rs.1.1 = false then false
  else if pyStrip rs.1.2 = "" then false
  else
    let ra := svc_run_git_command w repo_path ["add", "."]
    if ra.1.1 = false then false
    else
      let commit_message := formatTimestamp commit_message_template w.nowStr
      (svc_run_git_command w repo_path ["commit", "-m", commit_message]).1.1

/-- The exception raised by evaluating the f-string argument of
`logging.debug` at lines 382 and 398 of `git_puller_service.py`: the name
`remaining_seconds` is referenced there but never assigned anywhere in the
module, and Python evaluates the f-string before the logging call regardless
of the configured log level. -/
def remainingSecondsNameError : String :=
  "NameError: name " ++ (Char.ofNat 39).toString ++ "remaining_seconds"
    ++ (Char.ofNat 39).toString ++ " is not defined"

/-- The pull block of the service loop (lines 357-368 of
`git_puller_service.py`). -/
def svc_pullPhase (w : World) (repo : RepoData) : RepoData :=
  if repo.auto_pull then
    if dueB w.now repo.last_pulled_at repo.pull_interval then
      if svc_pull_repository w repo.path then { repo with last_pulled_at := w.now } else repo
    else repo
  else repo

/-- The commit block of the service loop (lines 371-384).  The not-yet-due
`else` branch evaluates a `logging.debug` f-string that references the
undefined `remaining_seconds`, raising `NameError`. -/
def svc_commitPhase (w : World) (repo : RepoData) : Except String RepoData :=
  if repo.auto_commit then
    if dueB w.now repo.last_committed_at repo.commit_interval then
      .ok (if svc_commit_repository w repo.path repo.commit_message_template then
            { repo with last_committed_at := w.now }
           else repo)
    else .error remainingSecondsNameError
  else .ok repo

/-- The push block of the service loop (lines 387-400), with the same
undefined-name `else` branch as the commit block. -/
def svc_pushPhase (w : World) (repo : RepoData) : Except String RepoData :=
  if repo.auto_push then
    if dueB w.now repo.last_pushed_at repo.push_interval then
      .ok (if svc_push_repository w repo.path then { repo with last_pushed_at := w.now } else repo)
    else .error remainingSecondsNameError
  else .ok repo

/-- Processing of one repository in the main periodic loop of
`git_puller_service.main` (lines 351-400): pull, then commit, then push; an
uncaught exception in a block aborts the rest. -/
def svc_sync_repo (w : World) (repo : RepoData) : Except String RepoData :=
  match svc_commitPhase w (svc_pullPhase w repo) with
  | .error e => .error e
  | .ok repo2 => svc_pushPhase w repo2

/-- One pass of the service loop body over the repository list: the first
uncaught exception aborts the remaining repositories (and, in the real
process, the whole service loop). -/
def svc_tick (w : World) : List RepoData → Except String (List RepoData)
  | [] => .ok []
  | repo :: rest =>
    match svc_sync_repo w repo with
    | .error e => .error e
    | .ok repo1 =>
      match svc_tick w rest with
      | .error e => .error e
      | .ok rest1 => .ok (repo1 :: rest1)

/-- The merge step of `git_puller_service.main` (lines 332-346), per freshly
loaded entry: the first previously known entry with the same `path` donates
its three timestamps; an unmatched entry is kept as loaded. -/
def svc_merge_entry (repositories : List RepoData) (new_repo_entry : RepoData) : RepoData :=
  match repositories.find? (fun old => old.path == new_repo_entry.path) with
  | some old_repo_entry =>
    { new_repo_entry with
        last_pulled_at := old_repo_entry.last_pulled_at,
        last_committed_at := old_repo_entry.last_committed_at,
        last_pushed_at := old_repo_entry.last_pushed_at }
  | none => new_repo_entry

/-- The whole merge of `git_puller_service.main`: the freshly loaded list in
its own order, each entry merged against the previous list. -/
def svc_merge (repositories current_repositories_config : List RepoData) : List RepoData :=
  current_repositories_config.map (svc_merge_entry repositories)

/-- The merge step of `gitbuddy_app.update_repositories_data` (lines 523-558),
per entry of the incoming configuration: `next(...)` finds the first existing
repository with the same path and its timestamps are preserved; a new
repository gets `datetime.min` timestamps. -/
def update_repositories_entry (existing : List RepoData) (new_repo : RepoData) : RepoData :=
  match existing.find? (fun r => r.path == new_repo.path) with
  | some existing_repo =>
    { new_repo with
        last_pulled_at := existing_repo.last_pulled_at,
        last_committed_at := existing_repo.last_committed_at,
        last_pushed_at := existing_repo.last_pushed_at }
  | none =>
    { new_repo with
        last_pulled_at := datetimeMin,
        last_committed_at := datetimeMin,
        last_pushed_at := datetimeMin }

/-- Model of `gitbuddy_app.update_repositories_data`: the new central repository list
(saving and UI refresh elided). -/
def update_repositories_data (existing new_repos_data : List RepoData) : List RepoData :=
  new_repos_data.map (update_repositories_entry existing)

/-- A configuration value as read from the JSON file: a number, a present
non-numeric value, or an absent key (for which `dict.get` returns the
default). -/
inductive JVal
  | num (q : ℚ)
  | nonNum
  | missing
deriving DecidableEq

/-- Interval handling of `git_puller_service.load_repositories` (lines
89-111): `entry.get(key, default_minutes)` in minutes, replaced by the
default when not an `int`/`float` or not positive, then converted to seconds
by multiplying by 60. -/
def svc_load_interval_seconds (v : JVal) (default_minutes : ℚ) : ℚ :=
  let raw : Option ℚ :=
    match v with
    | .num q => some q
    | .nonNum => none
    | .missing => some default_minutes
  let interval_minutes : ℚ :=
    match raw with
    | some q => if q ≤ 0 then default_minutes else q
    | none => default_minutes
  interval_minutes * 60

/-- Interval handling of `gitbuddy_app.load_app_state` (lines 471-482):
`entry.get(key, default_seconds)` in seconds, then `max(1, value)`.  A
present non-numeric value makes `max(1, value)` raise a `TypeError`, which
the enclosing `except Exception` catches, abandoning the whole load; this is
the `.error` case. -/
def app_load_interval_seconds (v : JVal) (default_seconds : ℚ) : Except Unit ℚ :=
  match v with
  | .num q => .ok (max 1 q)
  | .nonNum => .error ()
  | .missing => .ok (max 1 default_seconds)

/-- The three interval fields of one persisted repository entry. -/
structure RawIntervals where
  pull_interval : JVal
  commit_interval : JVal
  push_interval : JVal
deriving DecidableEq

/-- The three effective intervals (seconds) stored by
`git_puller_service.load_repositories` with its defaults of 5, 60 and 60
minutes. -/
def svc_load_intervals (r : RawIntervals) : ℚ × ℚ × ℚ :=
  (svc_load_interval_seconds r.pull_interval 5,
   svc_load_interval_seconds r.commit_interval 60,
   svc_load_interval_seconds r.push_interval 60)

/-- The three effective intervals (seconds) stored by
`gitbuddy_app.load_app_state` with its defaults of 300, 3600 and 3600
seconds. -/
def app_load_intervals (r : RawIntervals) : Except Unit (ℚ × ℚ × ℚ) := do
  let p ← app_load_interval_seconds r.pull_interval 300
  let c ← app_load_interval_seconds r.commit_interval 3600
  let u ← app_load_interval_seconds r.push_interval 3600
  return (p, c, u)

/-- Whether the pull block both fires and succeeds: enabled, not globally
paused, due, and `pull_repository` returned `true`. -/
def pullHappens (w : World) (pp : Bool) (repo : RepoData) : Bool :=
  (!pp && repo.auto_pull) && dueB w.now repo.last_pulled_at repo.pull_interval
    && (pull_repository w repo.path).1

/-- Whether the commit block both fires and succeeds. -/
def commitHappens (w : World) (pc : Bool) (repo : RepoData) : Bool :=
  (!pc && repo.auto_commit) && dueB w.now repo.last_committed_at repo.commit_interval
    && (commit_repository w repo.path repo.commit_message_template).1

/-- Whether the push block both fires and succeeds. -/
def pushHappens (w : World) (ps : Bool) (repo : RepoData) : Bool :=
  (!ps && repo.auto_push) && dueB w.now repo.last_pushed_at repo.push_interval
    && (push_repository w repo.path).1

/-- Whether the service pull block fires and succeeds. -/
def svcPullHappens (w : World) (repo : RepoData) : Bool :=
  repo.auto_pull && dueB w.now repo.last_pulled_at repo.pull_interval
    && svc_pull_repository w repo.path

/-- Whether the service commit block fires and succeeds. -/
def svcCommitHappens (w : World) (repo : RepoData) : Bool :=
  repo.auto_commit && dueB w.now repo.last_committed_at repo.commit_interval
    && svc_commit_repository w repo.path repo.commit_message_template

/-- Whether the service push block fires and succeeds. -/
def svcPushHappens (w : World) (repo : RepoData) : Bool :=
  repo.auto_push && dueB w.now repo.last_pushed_at repo.push_interval
    && svc_push_repository w repo.path

/-- Classifier on a spawned argument vector: a pull invocation. -/
def isPullArgs (args : List String) : Bool :=
  match args with
  | g :: sub :: _ => g == "git" && sub == "pull"
  | _ => false

/-- Classifier: any of the three subcommands the commit block can spawn
(status query, stage-all, commit). -/
def isCommitOpArgs (args : List String) : Bool :=
  match args with
  | g :: sub :: _ => g == "git" && (sub == "status" || sub == "add" || sub == "commit")
  | _ => false

/-- Classifier: a push invocation. -/
def isPushArgs (args : List String) : Bool :=
  match args with
  | g :: sub :: _ => g == "git" && sub == "push"
  | _ => false

/-- A world whose filesystem answer, spawn outcome and clock are constant:
enough to drive every code path deterministically in concrete instances. -/
def constWorld (dirAnswer : Bool) (outcome : SpawnOutcome) (now : ℤ) : World :=
  ⟨fun _ => dirAnswer, fun _ _ => outcome, now, "2024-01-01 00:00:00"⟩

/-- An ASCII single-quote character, spelled via its code point. -/
def singleQuote : String :=
  (Char.ofNat 39).toString

/-- The literal stderr text of the first auth-classification test vector. -/
def authFailText : String :=
  "fatal: Authentication failed for " ++ singleQuote
    ++ "https://example.com/repo.git" ++ singleQuote

/-- A sample repository entry used in concrete instances: auto-commit on,
one commit interval of 3600s, last committed 30 seconds before `now = 100`. -/
def repoCommitNotDue : RepoData :=
  ⟨"/home/user/project", false, 300, 0, true, 3600, 70,
    "Auto-commit from GitBuddy: {timestamp}", false, 3600, 0⟩

/-- A second sample repository entry (everything enabled, never synced). -/
def repoAllEnabled : RepoData :=
  ⟨"/home/user/other", true, 300, 0, true, 3600, 0,
    "Auto-commit from GitBuddy: {timestamp}", true, 3600, 0⟩

/-- A sample entry with every operation disabled. -/
def repoAllDisabled : RepoData :=
  ⟨"/home/user/quiet", false, 300, 7, false, 3600, 8,
    "Auto-commit from GitBuddy: {timestamp}", false, 3600, 9⟩

/-- A world where every path exists and every command succeeds silently. -/
def worldOk : World := constWorld true (.completed 0 "" "") 100

/-- A world where no path is a directory. -/
def worldNoDir : World := constWorld false (.completed 0 "" "") 100

/-- A world where every command fails with the authentication stderr text. -/
def worldAuthFail : World := constWorld true (.completed 1 "" authFailText) 100

/-- A world where every command fails with a merge-conflict stderr text. -/
def worldConflict : World := constWorld true (.completed 1 "" "fatal: conflict, needs merge") 100

/-- An application state holding one repository that is not due for anything
at `now = 100`. -/
def stateInert : AppState := ⟨[repoCommitNotDue], false, false, false⟩

/-- A previously known repository entry with nontrivial timestamps. -/
def oldRepoEntry : RepoData :=
  ⟨"/home/user/project", true, 300, 42, true, 3600, 43,
    "Auto-commit from GitBuddy: {timestamp}", true, 3600, 44⟩

/-- A freshly loaded entry for the same path with a changed pull interval and
freshly initialized timestamps. -/
def newRepoEntry : RepoData :=
  ⟨"/home/user/project", true, 600, 0, true, 3600, 0,
    "Auto-commit from GitBuddy: {timestamp}", true, 3600, 0⟩

/-! ### Helper lemmas about the embedded scheduler -/

theorem run_git_command_trace (w : World) (p : String) (args : List String) :
    (run_git_command w p args).2 = []
      ∨ (run_git_command w p args).2 = [⟨p, "git" :: args, gitEnvOverrides, true⟩] := by
  unfold run_git_command
  cases h1 : w.isDir p <;> simp [h1]
  cases h2 : w.isDir (joinPath p ".git") <;> simp [h2]
  cases h3 : w.spawn p ("git" :: args) <;> simp [h3]
  split <;> simp

theorem run_git_command_trace_mem (w : World) (p : String) (args : List String)
    (c : SpawnCall) (hc : c ∈ (run_git_command w p args).2) :
    c = ⟨p, "git" :: args, gitEnvOverrides, true⟩ := by
  rcases run_git_command_trace w p args with h | h <;> rw [h] at hc
  · cases hc
  · simpa using hc

theorem pull_repository_trace_mem (w : World) (p : String) (c : SpawnCall)
    (hc : c ∈ (pull_repository w p).2.1) : c.args = ["git", "pull"] := by
  unfold pull_repository at hc
  have := run_git_command_trace_mem w p ["pull"] c (by simpa using hc)
  rw [this]

theorem push_repository_trace_mem (w : World) (p : String) (c : SpawnCall)
    (hc : c ∈ (push_repository w p).2.1) : c.args = ["git", "push"] := by
  unfold push_repository at hc
  have := run_git_command_trace_mem w p ["push"] c (by simpa using hc)
  rw [this]

theorem commit_repository_trace_mem (w : World) (p tmpl : String) (c : SpawnCall)
    (hc : c ∈ (commit_repository w p tmpl).2.1) :
    c.args = ["git", "status", "--porcelain"] ∨ c.args = ["git", "add", "."]
      ∨ ∃ m, c.args = ["git", "commit", "-m", m] := by
  unfold commit_repository at hc
  cases h1 : (run_git_command w p ["status", "--porcelain"]).1.succeeded <;>
    simp [h1] at hc
  · exact Or.inl (by rw [run_git_command_trace_mem w p _ c hc])
  · by_cases h2 : pyStrip (run_git_command w p ["status", "--porcelain"]).1.output = "" <;>
      simp [h2] at hc
    · exact Or.inl (by rw [run_git_command_trace_mem w p _ c hc])
    · cases h3 : (run_git_command w p ["add", "."]).1.succeeded <;>
        simp [h3] at hc
      · rcases hc with hc | hc
        · exact Or.inl (by rw [run_git_command_trace_mem w p _ c hc])
        · exact Or.inr (Or.inl (by rw [run_git_command_trace_mem w p _ c hc]))
      · rcases hc with hc | hc | hc
        · exact Or.inl (by rw [run_git_command_trace_mem w p _ c hc])
        · exact Or.inr (Or.inl (by rw [run_git_command_trace_mem w p _ c hc]))
        · exact Or.inr (Or.inr ⟨_, by rw [run_git_command_trace_mem w p _ c hc]⟩)

theorem pullPhase_fst (w : World) (pp : Bool) (repo : RepoData) :
    (pullPhase w pp repo).1
      = if pullHappens w pp repo then { repo with last_pulled_at := w.now } else repo := by
  unfold pullPhase pullHappens
  cases h1 : (!pp && repo.auto_pull) <;> simp [h1]
  cases h2 : dueB w.now repo.last_pulled_at repo.pull_interval <;> simp [h2]

theorem commitPhase_fst (w : World) (pc : Bool) (repo : RepoData) :
    (commitPhase w pc repo).1
      = if commitHappens w pc repo then { repo with last_committed_at := w.now } else repo := by
  unfold commitPhase commitHappens
  cases h1 : (!pc && repo.auto_commit) <;> simp [h1]
  cases h2 : dueB w.now repo.last_committed_at repo.commit_interval <;> simp [h2]

theorem pushPhase_fst (w : World) (ps : Bool) (repo : RepoData) :
    (pushPhase w ps repo).1
      = if pushHappens w ps repo then { repo with last_pushed_at := w.now } else repo := by
  unfold pushPhase pushHappens
  cases h1 : (!ps && repo.auto_push) <;> simp [h1]
  cases h2 : dueB w.now repo.last_pushed_at repo.push_interval <;> simp [h2]

theorem pullPhase_skip (w : World) (pp : Bool) (repo : RepoData)
    (h : pp = true ∨ repo.auto_pull = false) : pullPhase w pp repo = (repo, [], []) := by
  unfold pullPhase
  rcases h with h | h <;> simp [h]

theorem commitPhase_skip (w : World) (pc : Bool) (repo : RepoData)
    (h : pc = true ∨ repo.auto_commit = false) : commitPhase w pc repo = (repo, [], []) := by
  unfold commitPhase
  rcases h with h | h <;> simp [h]

theorem pushPhase_skip (w : World) (ps : Bool) (repo : RepoData)
    (h : ps = true ∨ repo.auto_push = false) : pushPhase w ps repo = (repo, [], []) := by
  unfold pushPhase
  rcases h with h | h <;> simp [h]

theorem pullPhase_not_due (w : World) (pp : Bool) (repo : RepoData)
    (h : dueB w.now repo.last_pulled_at repo.pull_interval = false) :
    pullPhase w pp repo = (repo, [], []) := by
  unfold pullPhase
  simp [h]

theorem commitPhase_not_due (w : World) (pc : Bool) (repo : RepoData)
    (h : dueB w.now repo.last_committed_at repo.commit_interval = false) :
    commitPhase w pc repo = (repo, [], []) := by
  unfold commitPhase
  simp [h]

theorem pushPhase_not_due (w : World) (ps : Bool) (repo : RepoData)
    (h : dueB w.now repo.last_pushed_at repo.push_interval = false) :
    pushPhase w ps repo = (repo, [], []) := by
  unfold pushPhase
  simp [h]

theorem pullPhase_trace_mem (w : World) (pp : Bool) (repo : RepoData) (c : SpawnCall)
    (hc : c ∈ (pullPhase w pp repo).2.1) : c.args = ["git", "pull"] := by
  unfold pullPhase at hc
  cases h1 : (!pp && repo.auto_pull) <;> simp [h1] at hc
  cases h2 : dueB w.now repo.last_pulled_at repo.pull_interval <;> simp [h2] at hc
  exact pull_repository_trace_mem w repo.path c hc

theorem commitPhase_trace_mem (w : World) (pc : Bool) (repo : RepoData) (c : SpawnCall)
    (hc : c ∈ (commitPhase w pc repo).2.1) :
    c.args = ["git", "status", "--porcelain"] ∨ c.args = ["git", "add", "."]
      ∨ ∃ m, c.args = ["git", "commit", "-m", m] := by
  unfold commitPhase at hc
  cases h1 : (!pc && repo.auto_commit) <;> simp [h1] at hc
  cases h2 : dueB w.now repo.last_committed_at repo.commit_interval <;> simp [h2] at hc
  exact commit_repository_trace_mem w repo.path repo.commit_message_template c hc

theorem pushPhase_trace_mem (w : World) (ps : Bool) (repo : RepoData) (c : SpawnCall)
    (hc : c ∈ (pushPhase w ps repo).2.1) : c.args = ["git", "push"] := by
  unfold pushPhase at hc
  cases h1 : (!ps && repo.auto_push) <;> simp [h1] at hc
  cases h2 : dueB w.now repo.last_pushed_at repo.push_interval <;> simp [h2] at hc
  exact push_repository_trace_mem w repo.path c hc

theorem pullPhase_lpa (w : World) (pp : Bool) (r : RepoData) :
    (pullPhase w pp r).1.last_pulled_at
      = if pullHappens w pp r then w.now else r.last_pulled_at := by
  rw [pullPhase_fst]
  split <;> rfl

theorem pullPhase_lca (w : World) (pp : Bool) (r : RepoData) :
    (pullPhase w pp r).1.last_committed_at = r.last_committed_at := by
  rw [pullPhase_fst]
  split <;> rfl

theorem pullPhase_lpu (w : World) (pp : Bool) (r : RepoData) :
    (pullPhase w pp r).1.last_pushed_at = r.last_pushed_at := by
  rw [pullPhase_fst]
  split <;> rfl

theorem commitPhase_lca (w : World) (pc : Bool) (r : RepoData) :
    (commitPhase w pc r).1.last_committed_at
      = if commitHappens w pc r then w.now else r.last_committed_at := by
  rw [commitPhase_fst]
  split <;> rfl

theorem commitPhase_lpa (w : World) (pc : Bool) (r : RepoData) :
    (commitPhase w pc r).1.last_pulled_at = r.last_pulled_at := by
  rw [commitPhase_fst]
  split <;> rfl

theorem commitPhase_lpu (w : World) (pc : Bool) (r : RepoData) :
    (commitPhase w pc r).1.last_pushed_at = r.last_pushed_at := by
  rw [commitPhase_fst]
  split <;> rfl

theorem pushPhase_lpu (w : World) (ps : Bool) (r : RepoData) :
    (pushPhase w ps r).1.last_pushed_at
      = if pushHappens w ps r then w.now else r.last_pushed_at := by
  rw [pushPhase_fst]
  split <;> rfl

theorem pushPhase_lpa (w : World) (ps : Bool) (r : RepoData) :
    (pushPhase w ps r).1.last_pulled_at = r.last_pulled_at := by
  rw [pushPhase_fst]
  split <;> rfl

theorem pushPhase_lca (w : World) (ps : Bool) (r : RepoData) :
    (pushPhase w ps r).1.last_committed_at = r.last_committed_at := by
  rw [pushPhase_fst]
  split <;> rfl

theorem commitHappens_pullPhase (w : World) (pp pc : Bool) (repo : RepoData) :
    commitHappens w pc (pullPhase w pp repo).1 = commitHappens w pc repo := by
  rw [pullPhase_fst]
  split <;> rfl

theorem pushHappens_pullPhase (w : World) (pp ps : Bool) (repo : RepoData) :
    pushHappens w ps (pullPhase w pp repo).1 = pushHappens w ps repo := by
  rw [pullPhase_fst]
  split <;> rfl

theorem pushHappens_commitPhase (w : World) (pc ps : Bool) (r : RepoData) :
    pushHappens w ps (commitPhase w pc r).1 = pushHappens w ps r := by
  rw [commitPhase_fst]
  split <;> rfl

theorem syncRepo_invalid (w : World) (pp pc ps : Bool) (repo : RepoData)
    (h : validRepoB w repo = false) : syncRepo w pp pc ps repo = (repo, [], []) := by
  unfold syncRepo
  simp [h]

theorem syncRepo_valid_trace (w : World) (pp pc ps : Bool) (repo : RepoData)
    (h : validRepoB w repo = true) :
    (syncRepo w pp pc ps repo).2.1
      = (pullPhase w pp repo).2.1
        ++ (commitPhase w pc (pullPhase w pp repo).1).2.1
        ++ (pushPhase w ps (commitPhase w pc (pullPhase w pp repo).1).1).2.1 := by
  unfold syncRepo
  simp [h]

theorem syncRepo_valid_fst (w : World) (pp pc ps : Bool) (repo : RepoData)
    (h : validRepoB w repo = true) :
    (syncRepo w pp pc ps repo).1
      = (pushPhase w ps (commitPhase w pc (pullPhase w pp repo).1).1).1 := by
  unfold syncRepo
  simp [h]

theorem syncRepo_last_pulled (w : World) (pp pc ps : Bool) (repo : RepoData)
    (h : validRepoB w repo = true) :
    (syncRepo w pp pc ps repo).1.last_pulled_at
      = if pullHappens w pp repo then w.now else repo.last_pulled_at := by
  rw [syncRepo_valid_fst w pp pc ps repo h, pushPhase_lpa, commitPhase_lpa, pullPhase_lpa]

theorem syncRepo_last_committed (w : World) (pp pc ps : Bool) (repo : RepoData)
    (h : validRepoB w repo = true) :
    (syncRepo w pp pc ps repo).1.last_committed_at
      = if commitHappens w pc repo then w.now else repo.last_committed_at := by
  rw [syncRepo_valid_fst w pp pc ps repo h, pushPhase_lca, commitPhase_lca,
    commitHappens_pullPhase, pullPhase_lca]

theorem syncRepo_last_pushed (w : World) (pp pc ps : Bool) (repo : RepoData)
    (h : validRepoB w repo = true) :
    (syncRepo w pp pc ps repo).1.last_pushed_at
      = if pushHappens w ps repo then w.now else repo.last_pushed_at := by
  rw [syncRepo_valid_fst w pp pc ps repo h, pushPhase_lpu, pushHappens_commitPhase,
    pushHappens_pullPhase, commitPhase_lpu, pullPhase_lpu]

theorem perform_periodic_sync_repos (w : World) (st : AppState) :
    (perform_periodic_sync w st).1.repositories
      = st.repositories.map
          (fun r => (syncRepo w st.global_pause_pull st.global_pause_commit st.global_pause_push r).1) := by
  unfold perform_periodic_sync
  simp [List.map_map, Function.comp]

theorem perform_periodic_sync_spawns (w : World) (st : AppState) :
    (perform_periodic_sync w st).2.1
      = (st.repositories.map
          (fun r => (syncRepo w st.global_pause_pull st.global_pause_commit st.global_pause_push r).2.1)).flatten := by
  unfold perform_periodic_sync
  simp only [List.map_map]
  rfl

theorem syncRepo_inert (w : World) (pp pc ps : Bool) (repo : RepoData)
    (hp : repo.auto_pull = true → dueB w.now repo.last_pulled_at repo.pull_interval = false)
    (hc : repo.auto_commit = true → dueB w.now repo.last_committed_at repo.commit_interval = false)
    (hu : repo.auto_push = true → dueB w.now repo.last_pushed_at repo.push_interval = false) :
    syncRepo w pp pc ps repo = (repo, [], []) := by
  by_cases hv : validRepoB w repo = true
  · have e1 : pullPhase w pp repo = (repo, [], []) := by
      cases ha : repo.auto_pull
      · exact pullPhase_skip w pp repo (Or.inr ha)
      · exact pullPhase_not_due w pp repo (hp ha)
    have e2 : commitPhase w pc repo = (repo, [], []) := by
      cases ha : repo.auto_commit
      · exact commitPhase_skip w pc repo (Or.inr ha)
      · exact commitPhase_not_due w pc repo (hc ha)
    have e3 : pushPhase w ps repo = (repo, [], []) := by
      cases ha : repo.auto_push
      · exact pushPhase_skip w ps repo (Or.inr ha)
      · exact pushPhase_not_due w ps repo (hu ha)
    unfold syncRepo
    simp [hv, e1, e2, e3]
  · exact syncRepo_invalid w pp pc ps repo (by simpa using hv)

theorem perform_periodic_sync_inert (w : World) (st : AppState)
    (h : ∀ r ∈ st.repositories,
      (r.auto_pull = true → dueB w.now r.last_pulled_at r.pull_interval = false)
      ∧ (r.auto_commit = true → dueB w.now r.last_committed_at r.commit_interval = false)
      ∧ (r.auto_push = true → dueB w.now r.last_pushed_at r.push_interval = false)) :
    perform_periodic_sync w st = (st, [], []) := by
  have hr : ∀ r ∈ st.repositories,
      syncRepo w st.global_pause_pull st.global_pause_commit st.global_pause_push r
        = (r, [], []) := by
    intro r hmem
    exact syncRepo_inert w _ _ _ r (h r hmem).1 (h r hmem).2.1 (h r hmem).2.2
  unfold perform_periodic_sync
  rw [List.map_congr_left hr]
  simp only [List.map_map]
  have e1 : ((fun r : RepoData × List SpawnCall × List Report => r.1)
      ∘ fun a : RepoData => (a, ([] : List SpawnCall), ([] : List Report))) = fun a : RepoData => a := rfl
  have e2 : ((fun r : RepoData × List SpawnCall × List Report => r.2.1)
      ∘ fun a : RepoData => (a, ([] : List SpawnCall), ([] : List Report)))
      = fun _ : RepoData => ([] : List SpawnCall) := rfl
  have e3 : ((fun r : RepoData × List SpawnCall × List Report => r.2.2)
      ∘ fun a : RepoData => (a, ([] : List SpawnCall), ([] : List Report)))
      = fun _ : RepoData => ([] : List Report) := rfl
  rw [e1, e2, e3]
  simp

theorem svc_pullPhase_eq (w : World) (repo : RepoData) :
    svc_pullPhase w repo
      = if svcPullHappens w repo then { repo with last_pulled_at := w.now } else repo := by
  unfold svc_pullPhase svcPullHappens
  cases h1 : repo.auto_pull <;> simp [h1]
  cases h2 : dueB w.now repo.last_pulled_at repo.pull_interval <;> simp [h2]

theorem svc_pullPhase_lpa (w : World) (repo : RepoData) :
    (svc_pullPhase w repo).last_pulled_at
      = if svcPullHappens w repo then w.now else repo.last_pulled_at := by
  rw [svc_pullPhase_eq]
  split <;> rfl

theorem svcCommitHappens_pullPhase (w : World) (repo : RepoData) :
    svcCommitHappens w (svc_pullPhase w repo) = svcCommitHappens w repo := by
  rw [svc_pullPhase_eq]
  split <;> rfl

theorem svcPushHappens_pullPhase (w : World) (repo : RepoData) :
    svcPushHappens w (svc_pullPhase w repo) = svcPushHappens w repo := by
  rw [svc_pullPhase_eq]
  split <;> rfl

theorem svc_pullPhase_lca (w : World) (repo : RepoData) :
    (svc_pullPhase w repo).last_committed_at = repo.last_committed_at := by
  rw [svc_pullPhase_eq]
  split <;> rfl

theorem svc_pullPhase_lpu (w : World) (repo : RepoData) :
    (svc_pullPhase w repo).last_pushed_at = repo.last_pushed_at := by
  rw [svc_pullPhase_eq]
  split <;> rfl

theorem svc_commitPhase_ok (w : World) (r r2 : RepoData)
    (h : svc_commitPhase w r = .ok r2) :
    r2.last_committed_at = (if svcCommitHappens w r then w.now else r.last_committed_at)
      ∧ r2.last_pulled_at = r.last_pulled_at
      ∧ r2.last_pushed_at = r.last_pushed_at
      ∧ svcPushHappens w r2 = svcPushHappens w r := by
  unfold svc_commitPhase at h
  unfold svcCommitHappens
  cases h1 : r.auto_commit <;> simp [h1] at h ⊢
  · subst h
    simp
  · cases h2 : dueB w.now r.last_committed_at r.commit_interval <;> simp [h2] at h ⊢
    cases h3 : svc_commit_repository w r.path r.commit_message_template <;> simp [h3] at h ⊢
    · subst h
      simp
    · subst h
      constructor
      · rfl
      · exact ⟨rfl, rfl, rfl⟩

theorem svc_pushPhase_ok (w : World) (r r2 : RepoData)
    (h : svc_pushPhase w r = .ok r2) :
    r2.last_pushed_at = (if svcPushHappens w r then w.now else r.last_pushed_at)
      ∧ r2.last_pulled_at = r.last_pulled_at
      ∧ r2.last_committed_at = r.last_committed_at := by
  unfold svc_pushPhase at h
  unfold svcPushHappens
  cases h1 : r.auto_push <;> simp [h1] at h ⊢
  · subst h
    simp
  · cases h2 : dueB w.now r.last_pushed_at r.push_interval <;> simp [h2] at h ⊢
    cases h3 : svc_push_repository w r.path <;> simp [h3] at h ⊢
    · subst h
      simp
    · subst h
      exact ⟨rfl, rfl, rfl⟩

theorem svc_sync_repo_ok (w : World) (repo r : RepoData)
    (h : svc_sync_repo w repo = .ok r) :
    r.last_pulled_at = (if svcPullHappens w repo then w.now else repo.last_pulled_at)
      ∧ r.last_committed_at = (if svcCommitHappens w repo then w.now else repo.last_committed_at)
      ∧ r.last_pushed_at = (if svcPushHappens w repo then w.now else repo.last_pushed_at) := by
  unfold svc_sync_repo at h
  cases hcp : svc_commitPhase w (svc_pullPhase w repo) with
  | error e => rw [hcp] at h; cases h
  | ok r2 =>
    rw [hcp] at h
    obtain ⟨c1, c2, c3, c4⟩ := svc_commitPhase_ok w _ r2 hcp
    obtain ⟨p1, p2, p3⟩ := svc_pushPhase_ok w r2 r h
    refine ⟨?_, ?_, ?_⟩
    · rw [p2, c2, svc_pullPhase_lpa]
    · rw [p3, c1, svcCommitHappens_pullPhase, svc_pullPhase_lca]
    · rw [p1, c4, svcPushHappens_pullPhase, c3, svc_pullPhase_lpu]

theorem svc_run_git_command_trace (w : World) (p : String) (args : List String) :
    (svc_run_git_command w p args).2 = []
      ∨ (svc_run_git_command w p args).2 = [⟨p, "git" :: args, [], false⟩] := by
  unfold svc_run_git_command
  cases h1 : w.isDir p <;> simp [h1]
  cases h2 : w.isDir (joinPath p ".git") <;> simp [h2]
  cases h3 : w.spawn p ("git" :: args) <;> simp [h3]
  split <;> simp

theorem pullPhase_auto_commit (w : World) (pp : Bool) (repo : RepoData) :
    (pullPhase w pp repo).1.auto_commit = repo.auto_commit := by
  rw [pullPhase_fst]
  split <;> rfl

theorem pullPhase_auto_push (w : World) (pp : Bool) (repo : RepoData) :
    (pullPhase w pp repo).1.auto_push = repo.auto_push := by
  rw [pullPhase_fst]
  split <;> rfl

theorem commitPhase_auto_push (w : World) (pc : Bool) (r : RepoData) :
    (commitPhase w pc r).1.auto_push = r.auto_push := by
  rw [commitPhase_fst]
  split <;> rfl

/-! ### Claim theorems -/

/-- C1: for every repository and every operation in pull, commit, push, if
the operation is disabled for that repository or its global pause flag is
true, then the periodic tick (`perform_periodic_sync`) does not invoke the
external git command for that operation and leaves the last-success
timestamp of that operation unchanged, regardless of elapsed time.  Stated per
repository over the tick body `syncRepo`, together with the decomposition of
`perform_periodic_sync` into `syncRepo` applied to every configured
repository. -/
theorem claim1_paused_or_disabled_operation_inert
    (w : World) (pp pc ps : Bool) (repo : RepoData) (st : AppState) :
    ((pp = true ∨ repo.auto_pull = false) →
      (syncRepo w pp pc ps repo).1.last_pulled_at = repo.last_pulled_at
        ∧ ∀ c ∈ (syncRepo w pp pc ps repo).2.1, isPullArgs c.args = false) ∧
    ((pc = true ∨ repo.auto_commit = false) →
      (syncRepo w pp pc ps repo).1.last_committed_at = repo.last_committed_at
        ∧ ∀ c ∈ (syncRepo w pp pc ps repo).2.1, isCommitOpArgs c.args = false) ∧
    ((ps = true ∨ repo.auto_push = false) →
      (syncRepo w pp pc ps repo).1.last_pushed_at = repo.last_pushed_at
        ∧ ∀ c ∈ (syncRepo w pp pc ps repo).2.1, isPushArgs c.args = false) ∧
    (perform_periodic_sync w st).1.repositories
      = st.repositories.map
          (fun r => (syncRepo w st.global_pause_pull st.global_pause_commit st.global_pause_push r).1) ∧
    (perform_periodic_sync w st).2.1
      = (st.repositories.map
          (fun r => (syncRepo w st.global_pause_pull st.global_pause_commit st.global_pause_push r).2.1)).flatten := by
  refine ⟨?_, ?_, ?_, perform_periodic_sync_repos w st, perform_periodic_sync_spawns w st⟩
  · intro h
    constructor
    · by_cases hv : validRepoB w repo = true
      · have hg : pullHappens w pp repo = false := by
          unfold pullHappens
          rcases h with h | h <;> simp [h]
        rw [syncRepo_last_pulled w pp pc ps repo hv, hg]
        simp
      · rw [syncRepo_invalid w pp pc ps repo (by simpa using hv)]
    · intro c hc
      by_cases hv : validRepoB w repo = true
      · rw [syncRepo_valid_trace w pp pc ps repo hv] at hc
        simp only [List.mem_append] at hc
        rcases hc with (hc | hc) | hc
        · rw [pullPhase_skip w pp repo h] at hc
          cases hc
        · rcases commitPhase_trace_mem w pc _ c hc with ha | ha | ⟨m, ha⟩ <;> rw [ha] <;> rfl
        · rw [pushPhase_trace_mem w ps _ c hc]
          rfl
      · rw [syncRepo_invalid w pp pc ps repo (by simpa using hv)] at hc
        cases hc
  · intro h
    constructor
    · by_cases hv : validRepoB w repo = true
      · have hg : commitHappens w pc repo = false := by
          unfold commitHappens
          rcases h with h | h <;> simp [h]
        rw [syncRepo_last_committed w pp pc ps repo hv, hg]
        simp
      · rw [syncRepo_invalid w pp pc ps repo (by simpa using hv)]
    · intro c hc
      by_cases hv : validRepoB w repo = true
      · rw [syncRepo_valid_trace w pp pc ps repo hv] at hc
        simp only [List.mem_append] at hc
        rcases hc with (hc | hc) | hc
        · rw [pullPhase_trace_mem w pp repo c hc]
          rfl
        · have h2 : pc = true ∨ (pullPhase w pp repo).1.auto_commit = false := by
            rcases h with h | h
            · exact Or.inl h
            · exact Or.inr (by rw [pullPhase_auto_commit]; exact h)
          rw [commitPhase_skip w pc _ h2] at hc
          cases hc
        · rw [pushPhase_trace_mem w ps _ c hc]
          rfl
      · rw [syncRepo_invalid w pp pc ps repo (by simpa using hv)] at hc
        cases hc
  · intro h
    constructor
    · by_cases hv : validRepoB w repo = true
      · have hg : pushHappens w ps repo = false := by
          unfold pushHappens
          rcases h with h | h <;> simp [h]
        rw [syncRepo_last_pushed w pp pc ps repo hv, hg]
        simp
      · rw [syncRepo_invalid w pp pc ps repo (by simpa using hv)]
    · intro c hc
      by_cases hv : validRepoB w repo = true
      · rw [syncRepo_valid_trace w pp pc ps repo hv] at hc
        simp only [List.mem_append] at hc
        rcases hc with (hc | hc) | hc
        · rw [pullPhase_trace_mem w pp repo c hc]
          rfl
        · rcases commitPhase_trace_mem w pc _ c hc with ha | ha | ⟨m, ha⟩ <;> rw [ha] <;> rfl
        · have h3 : ps = true ∨ (commitPhase w pc (pullPhase w pp repo).1).1.auto_push = false := by
            rcases h with h | h
            · exact Or.inl h
            · exact Or.inr (by rw [commitPhase_auto_push, pullPhase_auto_push]; exact h)
          rw [pushPhase_skip w ps _ h3] at hc
          cases hc
      · rw [syncRepo_invalid w pp pc ps repo (by simpa using hv)] at hc
        cases hc

theorem claim1_witness :
    ((syncRepo worldOk false false false repoAllDisabled).1.last_pulled_at
        = repoAllDisabled.last_pulled_at)
      ∧ ((syncRepo worldOk false false false repoAllDisabled).1.last_committed_at
        = repoAllDisabled.last_committed_at)
      ∧ ((syncRepo worldOk false false false repoAllDisabled).1.last_pushed_at
        = repoAllDisabled.last_pushed_at)
      ∧ (∀ c ∈ (syncRepo worldOk true true true repoAllEnabled).2.1, isPullArgs c.args = false) := by
  refine ⟨?_, ?_, ?_, ?_⟩
  · exact ((claim1_paused_or_disabled_operation_inert worldOk false false false
      repoAllDisabled stateInert).1 (Or.inr rfl)).1
  · exact ((claim1_paused_or_disabled_operation_inert worldOk false false false
      repoAllDisabled stateInert).2.1 (Or.inr rfl)).1
  · exact ((claim1_paused_or_disabled_operation_inert worldOk false false false
      repoAllDisabled stateInert).2.2.1 (Or.inr rfl)).1
  · exact ((claim1_paused_or_disabled_operation_inert worldOk true true true
      repoAllEnabled stateInert).1 (Or.inl rfl)).2

/-- C2: a tick advances the timestamp of an operation to the current time
exactly when the operation was attempted (valid path, enabled, not paused,
due) and returned success; a failed attempt and a commit skipped as a no-op
leave the prior timestamp untouched, and a tick in which nothing is due
returns the state unchanged with no spawned process.  The last conjunct
states the same advancement rule for the background service loop whenever it
completes a repository without raising. -/
theorem claim2_timestamp_advances_iff_success
    (w : World) (pp pc ps : Bool) (repo : RepoData) (st : AppState) :
    ((syncRepo w pp pc ps repo).1.last_pulled_at
        = if validRepoB w repo && pullHappens w pp repo then w.now else repo.last_pulled_at)
      ∧ ((syncRepo w pp pc ps repo).1.last_committed_at
        = if validRepoB w repo && commitHappens w pc repo then w.now else repo.last_committed_at)
      ∧ ((syncRepo w pp pc ps repo).1.last_pushed_at
        = if validRepoB w repo && pushHappens w ps repo then w.now else repo.last_pushed_at)
      ∧ ((commit_repository w repo.path repo.commit_message_template).1 = false →
          (syncRepo w pp pc ps repo).1.last_committed_at = repo.last_committed_at)
      ∧ ((∀ r ∈ st.repositories,
            (r.auto_pull = true → dueB w.now r.last_pulled_at r.pull_interval = false)
            ∧ (r.auto_commit = true → dueB w.now r.last_committed_at r.commit_interval = false)
            ∧ (r.auto_push = true → dueB w.now r.last_pushed_at r.push_interval = false)) →
          perform_periodic_sync w st = (st, [], []))
      ∧ (∀ r : RepoData, svc_sync_repo w repo = .ok r →
          r.last_pulled_at = (if svcPullHappens w repo then w.now else repo.last_pulled_at)
          ∧ r.last_committed_at = (if svcCommitHappens w repo then w.now else repo.last_committed_at)
          ∧ r.last_pushed_at = (if svcPushHappens w repo then w.now else repo.last_pushed_at)) := by
  refine ⟨?_, ?_, ?_, ?_, perform_periodic_sync_inert w st, fun r h => svc_sync_repo_ok w repo r h⟩
  · by_cases hv : validRepoB w repo = true
    · rw [syncRepo_last_pulled w pp pc ps repo hv, hv]
      simp
    · have hv2 : validRepoB w repo = false := by simpa using hv
      rw [syncRepo_invalid w pp pc ps repo hv2]
      simp [hv2]
  · by_cases hv : validRepoB w repo = true
    · rw [syncRepo_last_committed w pp pc ps repo hv, hv]
      simp
    · have hv2 : validRepoB w repo = false := by simpa using hv
      rw [syncRepo_invalid w pp pc ps repo hv2]
      simp [hv2]
  · by_cases hv : validRepoB w repo = true
    · rw [syncRepo_last_pushed w pp pc ps repo hv, hv]
      simp
    · have hv2 : validRepoB w repo = false := by simpa using hv
      rw [syncRepo_invalid w pp pc ps repo hv2]
      simp [hv2]
  · intro hfail
    have hg : commitHappens w pc repo = false := by
      unfold commitHappens
      simp [hfail]
    by_cases hv : validRepoB w repo = true
    · rw [syncRepo_last_committed w pp pc ps repo hv, hg]
      simp
    · rw [syncRepo_invalid w pp pc ps repo (by simpa using hv)]

theorem claim2_witness :
    perform_periodic_sync worldOk stateInert = (stateInert, [], [])
      ∧ repoAllDisabled.last_pulled_at
        = (if svcPullHappens worldOk repoAllDisabled then worldOk.now
           else repoAllDisabled.last_pulled_at)
      ∧ (syncRepo worldNoDir false false false repoAllEnabled).1.last_committed_at
        = repoAllEnabled.last_committed_at := by
  refine ⟨?_, ?_, ?_⟩
  · exact (claim2_timestamp_advances_iff_success worldOk false false false repoAllDisabled
      stateInert).2.2.2.2.1 (by decide)
  · exact ((claim2_timestamp_advances_iff_success worldOk false false false repoAllDisabled
      stateInert).2.2.2.2.2 repoAllDisabled rfl).1
  · exact (claim2_timestamp_advances_iff_success worldNoDir false false false repoAllEnabled
      stateInert).2.2.2.1 (by decide)

/-- C3 (code bug): in the background service loop, a repository with
auto-commit enabled that is *not yet due* reaches the `else` branch at line
382 of `git_puller_service.py`, whose `logging.debug` f-string references the
never-assigned name `remaining_seconds`; the resulting `NameError` is caught
nowhere in `main`, so the tick aborts, the remaining repositories are
skipped, and the service loop dies — contradicting the claim that no
exception propagates out of the scheduling loop.  Evaluated here at the
concrete failing input `repoCommitNotDue` (commit interval 3600s, last commit
30s before `now`). -/
theorem claim3_service_tick_raises_name_error :
    svc_sync_repo worldOk repoCommitNotDue = .error remainingSecondsNameError
      ∧ svc_tick worldOk [repoCommitNotDue, repoAllEnabled]
        = .error remainingSecondsNameError := by
  constructor <;> rfl


/-- C4 (code bug): the GUI scheduler spawns every git command with the
non-interactive environment (`GIT_TERMINAL_PROMPT=0`, `GIT_ASKPASS=/bin/true`)
and stdin piped, but the background service `run_git_command` in
`git_puller_service.py` spawns with *no* environment override and stdin left
attached to the inherited terminal, so interactive credential prompting is
not disabled for any command the service runs — contradicting the claim that
every scheduler-spawned git command has prompting disabled. -/
theorem claim4_service_spawns_lack_noninteractive_env :
    (∀ (w : World) (p : String) (args : List String) (c : SpawnCall),
        c ∈ (svc_run_git_command w p args).2 → c.envOverrides = [] ∧ c.stdinPiped = false)
      ∧ (svc_run_git_command worldOk "/home/user/project" ["pull"]).2
        = [⟨"/home/user/project", ["git", "pull"], [], false⟩]
      ∧ (run_git_command worldOk "/home/user/project" ["pull"]).2
        = [⟨"/home/user/project", ["git", "pull"], gitEnvOverrides, true⟩] := by
  refine ⟨?_, by decide, by decide⟩
  intro w p args c hc
  rcases svc_run_git_command_trace w p args with h | h <;> rw [h] at hc
  · cases hc
  · simp at hc
    subst hc
    exact ⟨rfl, rfl⟩

theorem claim4_witness :
    (⟨"/home/user/project", ["git", "pull"], [], false⟩ : SpawnCall).envOverrides = []
      ∧ (⟨"/home/user/project", ["git", "pull"], [], false⟩ : SpawnCall).stdinPiped = false :=
  claim4_service_spawns_lack_noninteractive_env.1 worldOk "/home/user/project" ["pull"]
    ⟨"/home/user/project", ["git", "pull"], [], false⟩ (by decide)

/-- C5: `is_auth_error` of `gitbuddy_app.run_git_command` is computed by
case-insensitive substring matching of the stripped stderr text against the
fixed keyword list, and the returned flag is `false` whenever the exit code
is zero; on the two specification test vectors the classifier answers `true`
for the authentication-failure text and `false` for the merge-conflict
text. -/
theorem claim5_auth_classifier :
    (∀ (w : World) (p : String) (args : List String) (rc : Int) (out err : String),
        w.isDir p = true → w.isDir (joinPath p ".git") = true →
        w.spawn p ("git" :: args) = .completed rc out err →
        (run_git_command w p args).1.is_auth_error
          = if rc = 0 then false else matchesAuthKeyword (pyStrip err))
      ∧ (run_git_command worldAuthFail "/home/user/project" ["pull"]).1.is_auth_error = true
      ∧ (run_git_command worldConflict "/home/user/project" ["pull"]).1.is_auth_error = false
      ∧ matchesAuthKeyword authFailText = true
      ∧ matchesAuthKeyword "fatal: conflict, needs merge" = false := by
  refine ⟨?_, by decide, by decide, by decide, by decide⟩
  intro w p args rc out err h1 h2 h3
  unfold run_git_command
  simp only [h1, h2, h3]
  by_cases hrc : rc = 0 <;> simp [hrc]

theorem claim5_witness :
    (run_git_command worldAuthFail "/home/user/project" ["pull"]).1.is_auth_error
      = if (1 : Int) = 0 then false else matchesAuthKeyword (pyStrip authFailText) :=
  claim5_auth_classifier.1 worldAuthFail "/home/user/project" ["pull"] 1 "" authFailText
    rfl rfl rfl

/-- C6 counterexample: the claim says every stored interval is at least 60
seconds; but `load_app_state` clamps with `max(1, value)`, so a persisted
`pull_interval` of `0` is stored as `1` second, which is below 60. -/
theorem claim6_counterexample :
    app_load_intervals ⟨.num 0, .missing, .missing⟩ = .ok (1, 3600, 3600)
      ∧ ¬ (60 ≤ (1 : ℚ)) := by
  constructor
  · show Except.ok (max 1 0, max 1 3600, max 1 3600) = _
    norm_num
  · norm_num

/-- C6 (amended): every stored per-operation interval is strictly positive
and never zero — `load_app_state` clamps numeric values to a minimum of 1
second (a present non-numeric value raises `TypeError` and aborts the load,
storing nothing), and `load_repositories` replaces non-numeric or
non-positive minute values with its positive defaults before multiplying by
60 — but the declared minimum is 1 second, not 60, and sub-minimum positive
values are stored as given. -/
theorem claim6_amended_intervals_positive (v : JVal) (d q : ℚ) (r : RawIntervals) :
    (0 < d → 0 < svc_load_interval_seconds v d)
      ∧ (app_load_interval_seconds v d = .ok q → 1 ≤ q)
      ∧ (0 < (svc_load_intervals r).1 ∧ 0 < (svc_load_intervals r).2.1
          ∧ 0 < (svc_load_intervals r).2.2)
      ∧ (∀ p c u : ℚ, app_load_intervals r = .ok (p, c, u) → 1 ≤ p ∧ 1 ≤ c ∧ 1 ≤ u) := by
  have hsvc : ∀ (v : JVal) (d : ℚ), 0 < d → 0 < svc_load_interval_seconds v d := by
    intro v d hd
    unfold svc_load_interval_seconds
    cases v with
    | num x =>
      by_cases hx : x ≤ 0
      · simp [hx]
        positivity
      · simp [hx]
        push_neg at hx
        positivity
    | nonNum =>
      simp
      positivity
    | missing =>
      by_cases hdz : d ≤ 0
      · exact absurd hd (by simpa using hdz)
      · simp [hdz]
        positivity
  have happ : ∀ (v : JVal) (d q : ℚ), app_load_interval_seconds v d = .ok q → 1 ≤ q := by
    intro v d q h
    cases v <;> simp [app_load_interval_seconds] at h <;> rw [← h] <;> exact le_max_left 1 _
  refine ⟨hsvc v d, happ v d q, ⟨hsvc _ 5 (by norm_num), hsvc _ 60 (by norm_num),
    hsvc _ 60 (by norm_num)⟩, ?_⟩
  intro p c u h
  unfold app_load_intervals at h
  cases h1 : app_load_interval_seconds r.pull_interval 300 with
  | error e => rw [h1] at h; cases h
  | ok p1 =>
    rw [h1] at h
    cases h2 : app_load_interval_seconds r.commit_interval 3600 with
    | error e => rw [h2] at h; cases h
    | ok c1 =>
      rw [h2] at h
      cases h3 : app_load_interval_seconds r.push_interval 3600 with
      | error e => rw [h3] at h; cases h
      | ok u1 =>
        rw [h3] at h
        have h5 : Except.ok (ε := Unit) (p1, c1, u1) = Except.ok (p, c, u) := h
        have h4 : (p1, c1, u1) = (p, c, u) := Except.ok.inj h5
        injection h4 with hp h6
        injection h6 with hc hu
        exact ⟨hp ▸ happ _ _ _ h1, hc ▸ happ _ _ _ h2, hu ▸ happ _ _ _ h3⟩

theorem claim6_witness :
    (0 : ℚ) < svc_load_interval_seconds (JVal.num 5) 5
      ∧ (1 : ℚ) ≤ 5
      ∧ ((1 : ℚ) ≤ 300 ∧ (1 : ℚ) ≤ 3600 ∧ (1 : ℚ) ≤ 3600) := by
  refine ⟨?_, ?_, ?_⟩
  · exact (claim6_amended_intervals_positive (JVal.num 5) 5 5
      ⟨.missing, .missing, .missing⟩).1 (by norm_num)
  · refine (claim6_amended_intervals_positive (JVal.num 5) 5 5
      ⟨.missing, .missing, .missing⟩).2.1 ?_
    show Except.ok (max 1 5) = _
    norm_num
  · refine (claim6_amended_intervals_positive (JVal.num 5) 5 5
      ⟨.missing, .missing, .missing⟩).2.2.2 300 3600 3600 ?_
    show Except.ok (max 1 300, max 1 3600, max 1 3600) = _
    norm_num

/-- C7: when the status query succeeds with empty output, the commit
operation spawns only the status call (no stage-all, no commit subcommand),
returns `false` without emitting any failure notification (a no-op, not a
failure), and the tick leaves `last_committed_at` unchanged, so the
repository is re-checked on the next due cycle. -/
theorem claim7_commit_noop_on_clean_tree (w : World) (repo : RepoData) (pp pc ps : Bool)
    (out err : String)
    (h1 : w.isDir repo.path = true)
    (h2 : w.isDir (joinPath repo.path ".git") = true)
    (h3 : w.spawn repo.path ["git", "status", "--porcelain"] = .completed 0 out err)
    (h4 : pyStrip out = "") :
    commit_repository w repo.path repo.commit_message_template
      = (false, [⟨repo.path, ["git", "status", "--porcelain"], gitEnvOverrides, true⟩], [])
      ∧ (syncRepo w pp pc ps repo).1.last_committed_at = repo.last_committed_at := by
  have hrun : run_git_command w repo.path ["git", "status", "--porcelain"].tail
      = (⟨true, pyStrip out, false⟩,
         [⟨repo.path, ["git", "status", "--porcelain"], gitEnvOverrides, true⟩]) := by
    unfold run_git_command
    simp [h1, h2, h3]
  have hmain : commit_repository w repo.path repo.commit_message_template
      = (false, [⟨repo.path, ["git", "status", "--porcelain"], gitEnvOverrides, true⟩], []) := by
    unfold commit_repository
    rw [show run_git_command w repo.path ["status", "--porcelain"]
        = (⟨true, pyStrip out, false⟩,
           [⟨repo.path, ["git", "status", "--porcelain"], gitEnvOverrides, true⟩]) from hrun]
    have h5 : pyStrip (pyStrip out) = "" := by rw [h4]; rfl
    simp [h5]
  refine ⟨hmain, ?_⟩
  have hfalse : (commit_repository w repo.path repo.commit_message_template).1 = false := by
    rw [hmain]
  have hg : commitHappens w pc repo = false := by
    unfold commitHappens
    simp [hfalse]
  have hv : validRepoB w repo = true := by
    unfold validRepoB
    simp [h1, h2]
  rw [syncRepo_last_committed w pp pc ps repo hv, hg]
  simp

theorem claim7_witness :
    commit_repository worldOk repoAllEnabled.path repoAllEnabled.commit_message_template
      = (false, [⟨repoAllEnabled.path, ["git", "status", "--porcelain"], gitEnvOverrides, true⟩], [])
      ∧ (syncRepo worldOk false false false repoAllEnabled).1.last_committed_at
        = repoAllEnabled.last_committed_at :=
  claim7_commit_noop_on_clean_tree worldOk repoAllEnabled false false false "" ""
    rfl rfl rfl rfl

/-- C8: both reload merges match entries by `path` and carry the previously
known `last_pulled_at`, `last_committed_at` and `last_pushed_at` forward
exactly onto the freshly loaded settings, which themselves come from the new
entry; in particular `last_pulled_at = T` survives a reload that changes only
an interval. -/
theorem claim8_reload_preserves_timestamps (old new : List RepoData) (n o : RepoData) (T : ℤ)
    (hfind : old.find? (fun r => r.path == n.path) = some o)
    (hT : o.last_pulled_at = T) :
    svc_merge old new = new.map (svc_merge_entry old)
      ∧ (svc_merge_entry old n).last_pulled_at = T
      ∧ (svc_merge_entry old n).last_committed_at = o.last_committed_at
      ∧ (svc_merge_entry old n).last_pushed_at = o.last_pushed_at
      ∧ (svc_merge_entry old n).path = n.path
      ∧ (svc_merge_entry old n).auto_pull = n.auto_pull
      ∧ (svc_merge_entry old n).pull_interval = n.pull_interval
      ∧ (svc_merge_entry old n).auto_commit = n.auto_commit
      ∧ (svc_merge_entry old n).commit_interval = n.commit_interval
      ∧ (svc_merge_entry old n).commit_message_template = n.commit_message_template
      ∧ (svc_merge_entry old n).auto_push = n.auto_push
      ∧ (svc_merge_entry old n).push_interval = n.push_interval
      ∧ update_repositories_data old new = new.map (update_repositories_entry old)
      ∧ (update_repositories_entry old n).last_pulled_at = T
      ∧ (update_repositories_entry old n).last_committed_at = o.last_committed_at
      ∧ (update_repositories_entry old n).last_pushed_at = o.last_pushed_at
      ∧ (update_repositories_entry old n).pull_interval = n.pull_interval := by
  subst hT
  refine ⟨rfl, ?_⟩
  unfold svc_merge_entry update_repositories_entry
  rw [hfind]
  exact ⟨rfl, rfl, rfl, rfl, rfl, rfl, rfl, rfl, rfl, rfl, rfl, rfl, rfl, rfl, rfl, rfl⟩

theorem claim8_witness :
    (svc_merge_entry [oldRepoEntry] newRepoEntry).last_pulled_at = 42
      ∧ (update_repositories_entry [oldRepoEntry] newRepoEntry).last_pulled_at = 42
      ∧ (svc_merge_entry [oldRepoEntry] newRepoEntry).pull_interval
        = newRepoEntry.pull_interval := by
  have h := claim8_reload_preserves_timestamps [oldRepoEntry] [newRepoEntry]
    newRepoEntry oldRepoEntry 42 (by decide) rfl
  exact ⟨h.2.1, h.2.2.2.2.2.2.2.2.2.2.2.2.2.1, h.2.2.2.2.2.2.1⟩

/-- C9: if the path is not an existing directory or lacks a `.git`
directory, both `run_git_command` variants spawn no process and return
failure with a descriptive message; the GUI variant additionally returns
`is_auth_error = false`. -/
theorem claim9_precondition_violation_no_spawn (w : World) (p : String) (args : List String)
    (h : w.isDir p = false ∨ w.isDir (joinPath p ".git") = false) :
    (run_git_command w p args).2 = []
      ∧ (run_git_command w p args).1.succeeded = false
      ∧ (run_git_command w p args).1.is_auth_error = false
      ∧ ((run_git_command w p args).1.output = "Not a directory"
          ∨ (run_git_command w p args).1.output = "Not a Git repository")
      ∧ (svc_run_git_command w p args).2 = []
      ∧ (svc_run_git_command w p args).1.1 = false
      ∧ ((svc_run_git_command w p args).1.2 = "Not a directory"
          ∨ (svc_run_git_command w p args).1.2 = "Not a Git repository") := by
  unfold run_git_command svc_run_git_command
  cases hd : w.isDir p with
  | false => simp [hd]
  | true =>
    rcases h with h | h
    · rw [hd] at h
      cases h
    · simp [hd, h]

theorem claim9_witness :
    (run_git_command worldNoDir "/home/user/project" ["pull"]).2 = []
      ∧ (run_git_command worldNoDir "/home/user/project" ["pull"]).1.succeeded = false
      ∧ (run_git_command worldNoDir "/home/user/project" ["pull"]).1.is_auth_error = false
      ∧ (svc_run_git_command worldNoDir "/home/user/project" ["pull"]).2 = [] := by
  have h := claim9_precondition_violation_no_spawn worldNoDir "/home/user/project" ["pull"]
    (Or.inl rfl)
  exact ⟨h.1, h.2.1, h.2.2.1, h.2.2.2.2.1⟩

/-- C10 counterexample: the same persisted entry with `pull_interval = 5`
yields an effective pull interval of 300 seconds in
`git_puller_service.load_repositories` (which reads minutes and multiplies by
60) but 5 seconds in `gitbuddy_app.load_app_state` (which reads seconds and
clamps with `max(1, value)`), so the two loaders do not agree. -/
theorem claim10_counterexample :
    svc_load_intervals ⟨.num 5, .missing, .missing⟩ = (300, 3600, 3600)
      ∧ app_load_intervals ⟨.num 5, .missing, .missing⟩ = .ok (5, 3600, 3600)
      ∧ (300 : ℚ) ≠ 5 := by
  refine ⟨?_, ?_, by norm_num⟩
  · show ((if (5 : ℚ) ≤ 0 then (5 : ℚ) else 5) * 60,
        (if (60 : ℚ) ≤ 0 then (60 : ℚ) else 60) * 60,
        (if (60 : ℚ) ≤ 0 then (60 : ℚ) else 60) * 60)
      = ((300 : ℚ), (3600 : ℚ), (3600 : ℚ))
    norm_num [Prod.ext_iff]
  · show Except.ok (max 1 5, max 1 3600, max 1 3600) = _
    norm_num

/-- C10 (amended): the two loaders agree only on the defaults for a missing
interval field (300 s pull, 3600 s commit and push); a present numeric value
`q` is interpreted in different units — the service stores `q * 60`
(minutes-to-seconds, for positive `q`) while the app stores `max 1 q`
(seconds) — so for any value `q ≥ 1` the effective service interval is 60
times the effective app interval. -/
theorem claim10_amended_loaders_disagree_on_units (d1 d2 q : ℚ) :
    (svc_load_intervals ⟨.missing, .missing, .missing⟩ = (300, 3600, 3600)
      ∧ app_load_intervals ⟨.missing, .missing, .missing⟩ = .ok (300, 3600, 3600))
      ∧ (0 < q → svc_load_interval_seconds (.num q) d1 = q * 60
          ∧ app_load_interval_seconds (.num q) d2 = .ok (max 1 q))
      ∧ (1 ≤ q → svc_load_interval_seconds (.num q) d1 = 60 * max 1 q) := by
  refine ⟨⟨?_, ?_⟩, ?_, ?_⟩
  · show ((if (5 : ℚ) ≤ 0 then (5 : ℚ) else 5) * 60,
        (if (60 : ℚ) ≤ 0 then (60 : ℚ) else 60) * 60,
        (if (60 : ℚ) ≤ 0 then (60 : ℚ) else 60) * 60)
      = ((300 : ℚ), (3600 : ℚ), (3600 : ℚ))
    norm_num [Prod.ext_iff]
  · show Except.ok (max 1 300, max 1 3600, max 1 3600) = _
    norm_num
  · intro hq
    have hq2 : ¬ (q ≤ 0) := by linarith
    constructor
    · unfold svc_load_interval_seconds
      simp [hq2]
    · rfl
  · intro hq
    have hq2 : ¬ (q ≤ 0) := by linarith
    have hm : max 1 q = q := max_eq_right hq
    unfold svc_load_interval_seconds
    simp [hq2, hm]
    ring

theorem claim10_witness :
    svc_load_interval_seconds (JVal.num 5) 5 = 5 * 60
      ∧ app_load_interval_seconds (JVal.num 5) 300 = .ok (max 1 5)
      ∧ svc_load_interval_seconds (JVal.num 5) 5 = 60 * max 1 5 := by
  have h := claim10_amended_loaders_disagree_on_units 5 300 5
  exact ⟨(h.2.1 (by norm_num)).1, (h.2.1 (by norm_num)).2, h.2.2 (by norm_num)⟩
